import Mathlib

/-!
Verification development for the SleepHost moderation bot (`src/bot.py`).

The file shallowly embeds the bot's detection-and-response core:
the content automod filter (`on_message`), the per-actor sliding-window
anti-nuke tracker (`record_action`, the event handlers, the pruning task
`check_action_queues`), the audit-log correlator (`find_audit_executor`),
the response sequence executed on a threshold breach, and the two
operator configuration commands backed by the SQLite `automod_settings`
table (`cmd_set_banned_words`, `cmd_set_anti_threshold`).

Modelling conventions:
* Message text and stored strings are `List Char` (Python `str`).
  Python `str.lower` is modelled by `Char.toLower` (ASCII case folding,
  which covers every configured word and message the claims mention).
* Timestamps are `Nat` seconds.  `datetime.utcnow() - timedelta(...)` and
  a comparison `t < now - window` behave over `Nat` exactly as over
  integers, because for `t, window, now : Nat` truncated subtraction
  satisfies `t < now - window ↔ t + window < now`.
* The two `datetime.utcnow()` reads inside one event handler (one in
  `record_action`, one right after) are modelled as a single instant
  `now`; the clock is assumed monotone non-decreasing across events.
* Fallible platform calls are modelled by explicit success flags / an
  `Option` query result: a `try/except` around a call corresponds to
  reading the flag, and the absence of `try/except` (the notification
  `guild.system_channel.send` at line 180) corresponds to aborting the
  rest of the handler when the flag is false.
-/

namespace SleepHost

/-! ## Text utilities (Python string operations used by `bot.py`) -/

/-- Python `str.lower()` on message text (ASCII case folding). -/
def lowerStr (s : List Char) : List Char := s.map Char.toLower

/-- `leadsWith needle hay` holds when `needle` is an initial segment of
`hay`; the building block for Python's substring test. -/
def leadsWith : List Char → List Char → Bool
  | [], _ => true
  | _ :: _, [] => false
  | a :: as, b :: bs => a == b && leadsWith as bs

/-- Python's substring containment `needle in hay`. -/
def occursIn (needle : List Char) : List Char → Bool
  | [] => leadsWith needle []
  | b :: t => leadsWith needle (b :: t) || occursIn needle t

/-- Drop leading whitespace (half of Python `str.strip()`). -/
def stripLeft : List Char → List Char
  | [] => []
  | c :: rest => if c.isWhitespace then stripLeft rest else c :: rest

/-- Python `str.strip()`: whitespace removed from both ends. -/
def pstrip (s : List Char) : List Char :=
  ((stripLeft s).reverse |> stripLeft).reverse

/-- Python `s.split(",")`: split at every comma; pieces may be empty and
the result is never the empty list (`"".split(",") == [""]`). -/
def splitOnComma : List Char → List (List Char)
  | [] => [[]]
  | c :: rest =>
    if c = ',' then [] :: splitOnComma rest
    else
      match splitOnComma rest with
      | [] => [[c]]
      | piece :: pieces => (c :: piece) :: pieces

/-- Python `",".join(words)`. -/
def joinComma : List (List Char) → List Char
  | [] => []
  | [w] => w
  | w :: ws => w ++ ',' :: joinComma ws

/-! ## Link counting — `re.findall(r"https?://\S+", content)` (line 117)

`findall` scans left to right and takes non-overlapping leftmost
matches.  At a given position the pattern matches when the text starts
with `https://` or `http://` followed by at least one non-whitespace
character, and the match greedily extends over the maximal
non-whitespace run (`\S+`).  (When `https://` is a prefix, the `http://`
alternative cannot match at the same position, since the fifth character
is `s`, not `:`.) -/

/-- The characters of `"https://"`. -/
def httpsPre : List Char := ['h', 't', 't', 'p', 's', ':', '/', '/']

/-- The characters of `"http://"`. -/
def httpPre : List Char := ['h', 't', 't', 'p', ':', '/', '/']

/-- Drop the maximal leading run of non-whitespace characters (the text
consumed by a greedy `\S+`). -/
def dropNonSpace : List Char → List Char
  | [] => []
  | c :: rest => if c.isWhitespace then c :: rest else dropNonSpace rest

/-- Try to match `https?://\S+` starting exactly at the head of `s`;
on success return the remainder of the text after the match. -/
def matchHttpAt (s : List Char) : Option (List Char) :=
  if leadsWith httpsPre s then
    match s.drop 8 with
    | [] => none
    | c :: rest => if c.isWhitespace then none else some (dropNonSpace (c :: rest))
  else if leadsWith httpPre s then
    match s.drop 7 with
    | [] => none
    | c :: rest => if c.isWhitespace then none else some (dropNonSpace (c :: rest))
  else none

/-- Fuel-indexed scanner for `findall`: at each position either take the
match starting there and continue after it, or advance one character.
Every step strictly shortens the text, so fuel `s.length` is enough. -/
def countLinksFuel : Nat → List Char → Nat
  | 0, _ => 0
  | _, [] => 0
  | fuel + 1, c :: t =>
    match matchHttpAt (c :: t) with
    | some rest => 1 + countLinksFuel fuel rest
    | none => countLinksFuel fuel t

/-- `len(re.findall(r"https?://\S+", content))`. -/
def countLinks (s : List Char) : Nat := countLinksFuel s.length s

/-! ## Configuration — the `automod_settings` SQLite table (lines 41-72)

Schema: `guild_id INTEGER PRIMARY KEY, banned_words TEXT DEFAULT '',
max_links INTEGER DEFAULT 3, anti_nuke_threshold INTEGER DEFAULT 3,
anti_nuke_window INTEGER DEFAULT 10`.  The numeric columns hold Python
ints; every value reachable through the bot's commands and defaults in
the scenarios of the claims is non-negative, so they are modelled as
`Nat`. -/

/-- One row of `automod_settings` (the `guild_id` key is held by the
table, not the row). -/
structure SettingsRow where
  banned_words : List Char
  max_links : Nat
  anti_nuke_threshold : Nat
  anti_nuke_window : Nat
deriving DecidableEq

/-- The column defaults of the schema. -/
def defaultRow : SettingsRow :=
  { banned_words := [], max_links := 3, anti_nuke_threshold := 3, anti_nuke_window := 10 }

/-- The table: at most one row per `guild_id` (primary key). -/
def Table : Type := Nat → Option SettingsRow

/-- A database with no settings rows. -/
def emptyTable : Table := fun _ => none

/-- SQLite `INSERT OR REPLACE`: a conflicting row (same primary key) is
deleted and the new row inserted; columns absent from the column list of
the statement take their schema defaults.  The callers below therefore
build the inserted row from `defaultRow`. -/
def insertOrReplace (t : Table) (g : Nat) (row : SettingsRow) : Table :=
  fun g' => if g' = g then some row else t g'

/-- The settings dict produced by `get_automod_settings` (lines 57-66). -/
structure AutomodSettings where
  banned_words : List (List Char)
  max_links : Nat
  threshold : Nat
  window : Nat
deriving DecidableEq

/-- `get_automod_settings(guild_id)` (lines 57-66): read the row; split
the stored text on commas, except that an empty stored text gives the
empty list (`banned_words.split(",") if banned_words else []`); fall
back to the documented defaults when no row exists. -/
def get_automod_settings (t : Table) (g : Nat) : AutomodSettings :=
  match t g with
  | some row =>
    { banned_words := if row.banned_words.isEmpty then [] else splitOnComma row.banned_words
      max_links := row.max_links
      threshold := row.anti_nuke_threshold
      window := row.anti_nuke_window }
  | none => { banned_words := [], max_links := 3, threshold := 3, window := 10 }

/-- The default settings dict (line 66). -/
def defaultSettings : AutomodSettings :=
  { banned_words := [], max_links := 3, threshold := 3, window := 10 }

/-- `words_list = [w.strip() for w in words.split(",") if w.strip()]`
(line 249).  Note: the entries keep the case the operator typed — there
is no `.lower()` here (unlike the unused helper `set_banned_words` at
lines 68-72, which this command does not call). -/
def words_list (words : List Char) : List (List Char) :=
  ((splitOnComma words).map pstrip).filter (fun w => !w.isEmpty)

/-- The `!setbannedwords` command body (lines 248-253):
`INSERT OR REPLACE INTO automod_settings (guild_id, banned_words)
VALUES (?, ?)` with the comma-joined cleaned word list.  The columns
absent from the statement (`max_links`, `anti_nuke_threshold`,
`anti_nuke_window`) take their schema defaults in the replacing row. -/
def cmd_set_banned_words (t : Table) (g : Nat) (words : List Char) : Table :=
  insertOrReplace t g { defaultRow with banned_words := joinComma (words_list words) }

/-- The `!setantithreshold` command body (lines 266-269):
`INSERT OR REPLACE INTO automod_settings (guild_id, anti_nuke_threshold,
anti_nuke_window) VALUES (?, ?, ?)`.  The columns absent from the
statement (`banned_words`, `max_links`) take their schema defaults in
the replacing row. -/
def cmd_set_anti_threshold (t : Table) (g : Nat) (threshold window_seconds : Nat) : Table :=
  insertOrReplace t g
    { defaultRow with anti_nuke_threshold := threshold, anti_nuke_window := window_seconds }

/-! ## Content filter — the automod part of `on_message` (lines 96-126) -/

/-- Rejection reasons of the automod filter. -/
inductive Reason where
  | ProhibitedWord
  | TooManyLinks
deriving DecidableEq

/-- Verdict of the content filter on a message body. -/
inductive Verdict where
  | Allow
  | Reject (r : Reason)
deriving DecidableEq

/-- The first configured banned word that fires on the lowercased
content: the loop `for bad in banned_words: if bad and bad in content`
(lines 107-108). -/
def bannedHit (s : AutomodSettings) (content : List Char) : Option (List Char) :=
  List.find? (fun bad => !bad.isEmpty && occursIn bad content) s.banned_words

/-- The filter decision of `on_message` (lines 103-124): banned words
are checked first against `message.content.lower()`; only if none fires
is the link-flood rule applied to the raw content, rejecting when
`len(links) > max_links`. -/
def contentVerdict (s : AutomodSettings) (content : List Char) : Verdict :=
  match bannedHit s (lowerStr content) with
  | some _ => Verdict.Reject Reason.ProhibitedWord
  | none =>
    if s.max_links < countLinks content then Verdict.Reject Reason.TooManyLinks
    else Verdict.Allow

/-- An incoming message as seen by `on_message`:
`message.author.bot`, whether the guild passes the
`message.guild`/`is_guild_allowed` gate, and the body text. -/
structure Message where
  authorIsBot : Bool
  inAllowedGuild : Bool
  content : List Char
deriving DecidableEq

/-- Observable outcome of `on_message`:
`skipped` — the handler returned before touching the message (bot
author, or no guild / guild not whitelisted): nothing is deleted, no
rule is evaluated, commands are not processed;
`rejected r` — the automod deleted (best-effort) the message and sent a
notice with reason `r`;
`commandsProcessed` — the message fell through the filter into
`bot.process_commands`. -/
inductive MsgOutcome where
  | skipped
  | rejected (r : Reason)
  | commandsProcessed
deriving DecidableEq

/-- `on_message` (lines 96-126). -/
def on_message (s : AutomodSettings) (msg : Message) : MsgOutcome :=
  if msg.authorIsBot then MsgOutcome.skipped
  else if !msg.inAllowedGuild then MsgOutcome.skipped
  else
    match contentVerdict s msg.content with
    | Verdict.Reject r => MsgOutcome.rejected r
    | Verdict.Allow => MsgOutcome.commandsProcessed

/-! ## Anti-nuke tracker — `action_trackers` (line 54), `record_action`
(lines 129-134), the pruning task `check_action_queues` (lines 136-143)

`action_trackers` is `defaultdict(lambda: defaultdict(deque))`:
`{guild_id: {executor_id: deque([timestamps])}}`.  All tracked
operations stay inside one guild's inner dict, so the model carries the
inner dict of the guild at hand: an association list from executor id
to its deque of timestamps (oldest first).  Missing keys read as an
empty deque, and reading through `record_action` creates the entry, as
`defaultdict` does. -/

/-- The per-guild tracker dict: executor id ↦ deque of timestamps. -/
abbrev ActorMap : Type := List (Nat × List Nat)

/-- Read an executor's deque; a missing key reads as empty
(`defaultdict`). -/
def getDq (m : ActorMap) (u : Nat) : List Nat :=
  (List.lookup u m).getD []

/-- Store an executor's deque: overwrite the existing entry in place or
create it at the end (Python mutates the deque object held by the
dict). -/
def setDq : ActorMap → Nat → List Nat → ActorMap
  | [], u, dq => [(u, dq)]
  | (k, v) :: rest, u, dq =>
    if k = u then (u, dq) :: rest else (k, v) :: setDq rest u dq

/-- `record_action(guild_id, user_id)` (lines 129-134): append `now` at
the tail of the executor's deque and hand the deque back to the
caller. -/
def record_action (m : ActorMap) (u : Nat) (now : Nat) : ActorMap × List Nat :=
  let dq := getDq m u ++ [now]
  (setDq m u dq, dq)

/-- The head-trimming loop `while dq and dq[0] < cutoff: dq.popleft()`
used by both event handlers (lines 176-177, 204-205) and by the pruning
task (lines 142-143). -/
def trimHead (cutoff : Nat) : List Nat → List Nat
  | [] => []
  | t :: rest => if t < cutoff then trimHead cutoff rest else t :: rest

/-- The background task `check_action_queues` (lines 136-143): every few
seconds, pop entries older than `now - 5 minutes` from the head of every
tracked deque.  The loop never deletes a dict entry — an emptied deque
stays in the map. -/
def check_action_queues (m : ActorMap) (now : Nat) : ActorMap :=
  m.map (fun p => (p.1, trimHead (now - 300) p.2))

/-! ## Audit correlation — `find_audit_executor` (lines 146-160) -/

/-- The audit-log action of an entry (`discord.AuditLogAction`); `other`
stands for every action the correlator does not look for. -/
inductive AuditAction where
  | role_delete
  | channel_delete
  | role_update
  | ban
  | other
deriving DecidableEq

/-- The `action_type` string parameter of `find_audit_executor`:
`"role_delete" | "channel_delete" | "role_update" | "member_ban"`. -/
inductive ActionType where
  | role_delete
  | channel_delete
  | role_update
  | member_ban
deriving DecidableEq

/-- One audit-log entry: its action and the id of `entry.user`. -/
structure AuditEntry where
  action : AuditAction
  user : Nat
deriving DecidableEq

/-- The four `if action_type == ... and entry.action == ...` tests of
the loop body (lines 150-157); note `"member_ban"` pairs with
`AuditLogAction.ban`. -/
def matchesType : ActionType → AuditAction → Bool
  | ActionType.role_delete, AuditAction.role_delete => true
  | ActionType.channel_delete, AuditAction.channel_delete => true
  | ActionType.role_update, AuditAction.role_update => true
  | ActionType.member_ban, AuditAction.ban => true
  | _, _ => false

/-- The `async for entry in ...` loop: return the user of the first
entry whose action matches, else fall through to `None`. -/
def findExecLoop (t : ActionType) : List AuditEntry → Option Nat
  | [] => none
  | e :: rest => if matchesType t e.action then some e.user else findExecLoop t rest

/-- `find_audit_executor(guild, action_type, target)` (lines 146-160).
The platform query `guild.audit_logs(limit=25)` yields the most recent
entries, at most 25 of them; a query failure raises inside the `try`
and is caught, producing `None`.  The query outcome is passed in as
`auditResult`: `none` models the raised/caught failure, `some es` a
successful query answered by `es` (most recent first). -/
def find_audit_executor (t : ActionType) (auditResult : Option (List AuditEntry)) : Option Nat :=
  match auditResult with
  | none => none
  | some es => findExecLoop t (es.take 25)

/-! ## Response sequence and the destructive-event handlers
(`on_guild_role_delete` lines 163-190, `on_guild_channel_delete`
lines 192-216) -/

/-- The environment a handler runs against: the
`is_guild_allowed` gate, and success flags for the three outbound
platform calls of the response.  `notifySucceeds` is false when
`guild.system_channel` is `None` (then `guild.system_channel.send`
raises `AttributeError`) or the send itself fails. -/
structure GuildEnv where
  allowed : Bool
  notifySucceeds : Bool
  banSucceeds : Bool
  lockdownSucceeds : Bool
deriving DecidableEq

/-- Observable outcome of one triggered response sequence
(lines 180-190): which steps were attempted, which succeeded, and
whether the handler aborted with an uncaught exception. -/
structure ResponseOutcome where
  notified : Bool
  banAttempted : Bool
  banSucceeded : Bool
  lockdownAttempted : Bool
  lockdownSucceeded : Bool
  raised : Bool
deriving DecidableEq

/-- The response block (lines 180-190).  The announcement at line 180 is
*not* inside any `try/except`: when it fails the exception propagates
and the handler stops, so neither the ban (lines 181-184, wrapped in
`try/except`) nor the lockdown (lines 186-190, wrapped in `try/except`)
is attempted.  When the announcement succeeds, the ban and the lockdown
are each attempted exactly once and a failure of either is caught and
printed. -/
def runResponse (env : GuildEnv) : ResponseOutcome :=
  if env.notifySucceeds then
    { notified := true
      banAttempted := true
      banSucceeded := env.banSucceeds
      lockdownAttempted := true
      lockdownSucceeded := env.lockdownSucceeds
      raised := false }
  else
    { notified := false
      banAttempted := false
      banSucceeded := false
      lockdownAttempted := false
      lockdownSucceeded := false
      raised := true }

/-- `on_guild_role_delete(role)` (lines 163-190): gate on
`is_guild_allowed`; resolve the executor from the audit log and return
silently when that gives `None`; record the action; trim the executor's
deque by the configured window (`while dq and dq[0] < now - window`);
when the post-trim length reaches the threshold, run the response
block.  The trim mutates the deque object held by the tracker dict,
modelled by writing the trimmed deque back. -/
def on_guild_role_delete (env : GuildEnv) (s : AutomodSettings) (m : ActorMap)
    (auditResult : Option (List AuditEntry)) (now : Nat) :
    ActorMap × Option ResponseOutcome :=
  if env.allowed then
    match find_audit_executor ActionType.role_delete auditResult with
    | none => (m, none)
    | some executor =>
      let r := record_action m executor now
      let dq := trimHead (now - s.window) r.2
      let m2 := setDq r.1 executor dq
      if s.threshold ≤ dq.length then (m2, some (runResponse env))
      else (m2, none)
  else (m, none)

/-- `on_guild_channel_delete(channel)` (lines 192-216): identical to the
role handler except that the audit lookup asks for
`"channel_delete"`. -/
def on_guild_channel_delete (env : GuildEnv) (s : AutomodSettings) (m : ActorMap)
    (auditResult : Option (List AuditEntry)) (now : Nat) :
    ActorMap × Option ResponseOutcome :=
  if env.allowed then
    match find_audit_executor ActionType.channel_delete auditResult with
    | none => (m, none)
    | some executor =>
      let r := record_action m executor now
      let dq := trimHead (now - s.window) r.2
      let m2 := setDq r.1 executor dq
      if s.threshold ≤ dq.length then (m2, some (runResponse env))
      else (m2, none)
  else (m, none)

/-- Drive a sequence of role-deletion events, all attributed to executor
`u` by a one-entry audit answer, and count how many of them triggered a
response that attempted a ban. -/
def runRoleDeletes (env : GuildEnv) (s : AutomodSettings) (u : Nat) :
    ActorMap → List Nat → ActorMap × Nat
  | m, [] => (m, 0)
  | m, t :: ts =>
    let r := on_guild_role_delete env s m (some [⟨AuditAction.role_delete, u⟩]) t
    let rest := runRoleDeletes env s u r.1 ts
    (rest.1,
      (match r.2 with
       | some o => if o.banAttempted then 1 else 0
       | none => 0) + rest.2)

/-! ## Helper lemmas about the tracker state -/

lemma lookup_setDq_self (m : ActorMap) (u : Nat) (dq : List Nat) :
    List.lookup u (setDq m u dq) = some dq := by
  induction m with
  | nil => simp [setDq, List.lookup]
  | cons p rest ih =>
    obtain ⟨k, v⟩ := p
    by_cases h : k = u
    · subst h
      simp [setDq, List.lookup]
    · have hne : (u == k) = false := by
        simp [Ne.symm h]
      simp [setDq, h, List.lookup, hne, ih]

lemma getDq_setDq_self (m : ActorMap) (u : Nat) (dq : List Nat) :
    getDq (setDq m u dq) u = dq := by
  simp [getDq, lookup_setDq_self]

lemma setDq_setDq (m : ActorMap) (u : Nat) (a b : List Nat) :
    setDq (setDq m u a) u b = setDq m u b := by
  induction m with
  | nil => simp [setDq]
  | cons p rest ih =>
    obtain ⟨k, v⟩ := p
    by_cases h : k = u
    · subst h
      simp [setDq]
    · simp [setDq, h, ih]

lemma lookup_map_trim (f : List Nat → List Nat) (m : ActorMap) (u : Nat) :
    List.lookup u (m.map (fun p => (p.1, f p.2))) = (List.lookup u m).map f := by
  induction m with
  | nil => simp [List.lookup]
  | cons p rest ih =>
    obtain ⟨k, v⟩ := p
    by_cases h : u = k
    · subst h
      simp [List.lookup]
    · have hne : (u == k) = false := by
        simp [h]
      simp [List.lookup, hne, ih]

lemma trimHead_sorted (c : Nat) :
    ∀ l : List Nat, l.Sorted (· ≤ ·) → (trimHead c l).Sorted (· ≤ ·)
  | [], _ => by simp [trimHead]
  | t :: rest, h => by
    simp only [trimHead]
    split
    · exact trimHead_sorted c rest h.of_cons
    · exact h

lemma trimHead_eq_filter (c : Nat) :
    ∀ l : List Nat, l.Sorted (· ≤ ·) →
      trimHead c l = l.filter (fun t => decide (c ≤ t))
  | [], _ => rfl
  | t :: rest, h => by
    simp only [trimHead, List.filter_cons]
    by_cases ht : t < c
    · rw [if_pos ht]
      have hd : (decide (c ≤ t)) = false := by
        simp
        omega
      rw [hd]
      simp only [Bool.false_eq_true, if_false]
      exact trimHead_eq_filter c rest h.of_cons
    · rw [if_neg ht]
      have hd : (decide (c ≤ t)) = true := by
        simp
        omega
      rw [hd]
      simp only [if_true]
      have hall : ∀ x ∈ rest, t ≤ x := List.rel_of_sorted_cons h
      rw [List.filter_eq_self.mpr]
      intro x hx
      have := hall x hx
      simp
      omega

lemma trimHead_eq_nil (c : Nat) :
    ∀ l : List Nat, (∀ t ∈ l, t < c) → trimHead c l = []
  | [], _ => rfl
  | t :: rest, h => by
    simp only [trimHead]
    rw [if_pos (h t (by simp))]
    exact trimHead_eq_nil c rest (fun x hx => h x (by simp [hx]))

lemma sorted_append_singleton (l : List Nat) (now : Nat)
    (hsort : l.Sorted (· ≤ ·)) (hmono : ∀ t ∈ l, t ≤ now) :
    (l ++ [now]).Sorted (· ≤ ·) :=
  List.pairwise_append.mpr ⟨hsort, by simp, by
    intro a ha b hb
    simp only [List.mem_singleton] at hb
    subst hb
    exact hmono a ha⟩

lemma getDq_check (m : ActorMap) (now u : Nat) :
    getDq (check_action_queues m now) u = trimHead (now - 300) (getDq m u) := by
  unfold getDq check_action_queues
  rw [lookup_map_trim]
  cases List.lookup u m <;> simp [trimHead]

lemma findExecLoop_eq (t : ActionType) :
    ∀ l : List AuditEntry,
      findExecLoop t l
        = (l.find? (fun e => matchesType t e.action)).map AuditEntry.user
  | [] => rfl
  | e :: rest => by
    by_cases h : matchesType t e.action
    · simp [findExecLoop, h, List.find?_cons_of_pos]
    · have h' : (matchesType t e.action) = false := by
        simp [h]
      simp [findExecLoop, h', List.find?_cons_of_neg, findExecLoop_eq t rest]

/-- One destructive-event handler step, written as a single equation:
under an allowed guild and a successful attribution to `u`, the handler
appends `now`, trims by the window, stores the trimmed deque back, and
responds exactly when the threshold is reached. -/
lemma role_delete_step (env : GuildEnv) (s : AutomodSettings) (m : ActorMap)
    (u now : Nat) (qr : Option (List AuditEntry))
    (hallow : env.allowed = true)
    (hres : find_audit_executor ActionType.role_delete qr = some u) :
    on_guild_role_delete env s m qr now
      = (setDq m u (trimHead (now - s.window) (getDq m u ++ [now])),
         if s.threshold ≤ (trimHead (now - s.window) (getDq m u ++ [now])).length
         then some (runResponse env) else none) := by
  simp only [on_guild_role_delete, record_action, hallow, hres, if_true, setDq_setDq]
  split <;> rfl

/-! ## The claims -/

/-- C1: the claim states that a failure in one response step never
blocks the later steps — in particular that a failed notification still
leaves the ban and the lockdown attempted.  On the code this is wrong:
the announcement `guild.system_channel.send(...)` at line 180 sits
outside every `try/except`, so when the guild has no system channel (or
the send fails) the handler raises and neither the ban nor the lockdown
is attempted.  This theorem evaluates the handler at such a failing
input (threshold 3 reached, no working notification channel) and also
records the half of the claim the code does honour: a caught ban
failure still leads to an attempted lockdown. -/
theorem c1_notify_failure_blocks_later_steps :
    ((on_guild_role_delete ⟨true, false, true, true⟩ defaultSettings [(9, [5, 6])]
        (some [⟨AuditAction.role_delete, 9⟩]) 7).2
      = some { notified := false, banAttempted := false, banSucceeded := false,
               lockdownAttempted := false, lockdownSucceeded := false, raised := true })
    ∧ (runResponse ⟨true, true, false, true⟩).lockdownAttempted = true
    ∧ (runResponse ⟨true, true, false, true⟩).banSucceeded = false := by
  decide

/-- C2: the claim states that the two operator commands are
field-scoped.  On the code this is wrong: both commands issue SQLite
`INSERT OR REPLACE` with a partial column list, which replaces the whole
row and resets every omitted column to its schema default.  Setting the
anti-nuke parameters after configuring banned words erases the banned
words (they become the default `''`); setting banned words after
raising the threshold to 5 resets the threshold to the default 3. -/
theorem c2_settings_update_resets_other_fields :
    ((get_automod_settings (cmd_set_banned_words emptyTable 1 ['s', 'p', 'a', 'm'])
        1).banned_words = [['s', 'p', 'a', 'm']])
    ∧ ((get_automod_settings
          (cmd_set_anti_threshold (cmd_set_banned_words emptyTable 1 ['s', 'p', 'a', 'm'])
            1 5 20) 1).banned_words = [])
    ∧ ((get_automod_settings (cmd_set_anti_threshold emptyTable 1 5 20) 1).threshold = 5)
    ∧ ((get_automod_settings
          (cmd_set_banned_words (cmd_set_anti_threshold emptyTable 1 5 20)
            1 ['s', 'p', 'a', 'm']) 1).threshold = 3) := by
  decide

/-- C3, counterexample: the claim states that re-breaching before the
window empties never re-triggers a duplicate ban attempt against the
already-targeted actor.  With threshold 3 and window 10, four role
deletions by actor 9 at times 0, 1, 2, 3 produce two full response
sequences — the handler has no dedup, so the fourth event issues a
second ban attempt. -/
theorem c3_rebreach_counterexample :
    (runRoleDeletes ⟨true, true, true, true⟩ defaultSettings 9 [] [0, 1, 2, 3]).2 = 2 := by
  decide

/-- C3, amended: with threshold 3 and window 10 (the defaults), two
recorded actions within the window never trigger the response and the
third triggers it exactly once; however a fourth action by the same
actor before the window empties re-triggers the full response,
including another ban attempt — the code deduplicates nothing.  The
count is the number of triggered responses that attempted a ban. -/
theorem c3_threshold_and_rebreach (u t1 t2 t3 t4 : Nat)
    (h12 : t1 ≤ t2) (h23 : t2 ≤ t3) (h34 : t3 ≤ t4) (hwin : t4 ≤ t1 + 10) :
    (runRoleDeletes ⟨true, true, true, true⟩ defaultSettings u [] [t1, t2]).2 = 0
    ∧ (runRoleDeletes ⟨true, true, true, true⟩ defaultSettings u [] [t1, t2, t3]).2 = 1
    ∧ (runRoleDeletes ⟨true, true, true, true⟩ defaultSettings u []
        [t1, t2, t3, t4]).2 = 2 := by
  have hstep := fun (m : ActorMap) (now : Nat) =>
    role_delete_step ⟨true, true, true, true⟩ defaultSettings m u now
      (some [⟨AuditAction.role_delete, u⟩]) rfl rfl
  have hw : defaultSettings.window = 10 := rfl
  have hth : defaultSettings.threshold = 3 := rfl
  have e1 : on_guild_role_delete ⟨true, true, true, true⟩ defaultSettings []
      (some [⟨AuditAction.role_delete, u⟩]) t1 = (setDq [] u [t1], none) := by
    rw [hstep]
    have hg : getDq [] u = [] := rfl
    rw [hg, hw, hth]
    have htrim : trimHead (t1 - 10) ([] ++ [t1]) = [t1] := by
      simp only [List.nil_append, trimHead]
      rw [if_neg (by omega)]
    rw [htrim]
    rw [if_neg (by simp)]
  have e2 : on_guild_role_delete ⟨true, true, true, true⟩ defaultSettings (setDq [] u [t1])
      (some [⟨AuditAction.role_delete, u⟩]) t2 = (setDq [] u [t1, t2], none) := by
    rw [hstep]
    rw [getDq_setDq_self, hw, hth]
    have htrim : trimHead (t2 - 10) ([t1] ++ [t2]) = [t1, t2] := by
      show trimHead (t2 - 10) [t1, t2] = [t1, t2]
      simp only [trimHead]
      rw [if_neg (by omega)]
    rw [htrim, setDq_setDq]
    rw [if_neg (by simp)]
  have e3 : on_guild_role_delete ⟨true, true, true, true⟩ defaultSettings (setDq [] u [t1, t2])
      (some [⟨AuditAction.role_delete, u⟩]) t3
      = (setDq [] u [t1, t2, t3], some (runResponse ⟨true, true, true, true⟩)) := by
    rw [hstep]
    rw [getDq_setDq_self, hw, hth]
    have htrim : trimHead (t3 - 10) ([t1, t2] ++ [t3]) = [t1, t2, t3] := by
      show trimHead (t3 - 10) [t1, t2, t3] = [t1, t2, t3]
      simp only [trimHead]
      rw [if_neg (by omega)]
    rw [htrim, setDq_setDq]
    rw [if_pos (by simp)]
  have e4 : on_guild_role_delete ⟨true, true, true, true⟩ defaultSettings
      (setDq [] u [t1, t2, t3]) (some [⟨AuditAction.role_delete, u⟩]) t4
      = (setDq [] u [t1, t2, t3, t4], some (runResponse ⟨true, true, true, true⟩)) := by
    rw [hstep]
    rw [getDq_setDq_self, hw, hth]
    have htrim : trimHead (t4 - 10) ([t1, t2, t3] ++ [t4]) = [t1, t2, t3, t4] := by
      show trimHead (t4 - 10) [t1, t2, t3, t4] = [t1, t2, t3, t4]
      simp only [trimHead]
      rw [if_neg (by omega)]
    rw [htrim, setDq_setDq]
    rw [if_pos (by simp)]
  refine ⟨?_, ?_, ?_⟩ <;>
    simp [runRoleDeletes, e1, e2, e3, e4, runResponse]

/-- C3, witness: actor 9 deleting roles at times 0, 1, 2, 3 — no ban
attempt after two events, one after three, two after four. -/
theorem c3_threshold_and_rebreach_witness :
    (runRoleDeletes ⟨true, true, true, true⟩ defaultSettings 9 [] [0, 1]).2 = 0
    ∧ (runRoleDeletes ⟨true, true, true, true⟩ defaultSettings 9 [] [0, 1, 2]).2 = 1
    ∧ (runRoleDeletes ⟨true, true, true, true⟩ defaultSettings 9 [] [0, 1, 2, 3]).2 = 2 :=
  c3_threshold_and_rebreach 9 0 1 2 3 (by decide) (by decide) (by decide) (by decide)

/-- C4: for a destructive event in an allowed guild attributed to actor
`u`, the handler appends `now` to the actor's window, discards exactly
the entries strictly older than `now - window` (given the clock
monotonicity the spec assumes, under which the window is sorted), and
triggers the containment response if and only if the remaining count
reaches the configured threshold. -/
theorem c4_record_trim_threshold (env : GuildEnv) (s : AutomodSettings) (m : ActorMap)
    (u now : Nat) (es : List AuditEntry)
    (hallow : env.allowed = true)
    (hres : find_audit_executor ActionType.role_delete (some es) = some u)
    (hsort : (getDq m u).Sorted (· ≤ ·))
    (hmono : ∀ t ∈ getDq m u, t ≤ now) :
    getDq (on_guild_role_delete env s m (some es) now).1 u
      = (getDq m u ++ [now]).filter (fun t => decide (now - s.window ≤ t))
    ∧ ((on_guild_role_delete env s m (some es) now).2.isSome
        ↔ s.threshold
            ≤ ((getDq m u ++ [now]).filter (fun t => decide (now - s.window ≤ t))).length) := by
  have hsorted2 : (getDq m u ++ [now]).Sorted (· ≤ ·) :=
    sorted_append_singleton _ _ hsort hmono
  have hT := trimHead_eq_filter (now - s.window) _ hsorted2
  rw [role_delete_step env s m u now _ hallow hres]
  constructor
  · rw [getDq_setDq_self, hT]
  · rw [hT]
    by_cases hc :
        s.threshold ≤ ((getDq m u ++ [now]).filter (fun t => decide (now - s.window ≤ t))).length
    · simp [hc]
    · simp [hc]

/-- C4, witness: three prior actions at 5 and 6, a new one at 7,
window 10, threshold 3 — nothing is discarded and the response
triggers. -/
theorem c4_record_trim_threshold_witness :
    getDq (on_guild_role_delete ⟨true, true, true, true⟩ defaultSettings [(9, [5, 6])]
        (some [⟨AuditAction.role_delete, 9⟩]) 7).1 9
      = (getDq [(9, [5, 6])] 9 ++ [7]).filter (fun t => decide (7 - defaultSettings.window ≤ t))
    ∧ ((on_guild_role_delete ⟨true, true, true, true⟩ defaultSettings [(9, [5, 6])]
          (some [⟨AuditAction.role_delete, 9⟩]) 7).2.isSome
        ↔ defaultSettings.threshold
            ≤ ((getDq [(9, [5, 6])] 9 ++ [7]).filter
                (fun t => decide (7 - defaultSettings.window ≤ t))).length) :=
  c4_record_trim_threshold ⟨true, true, true, true⟩ defaultSettings [(9, [5, 6])] 9 7
    [⟨AuditAction.role_delete, 9⟩] rfl rfl (by decide) (by decide)

/-- C5: when no banned word fires, a message whose link count equals
the configured `max_links` is allowed, one more link is rejected with
`TooManyLinks`, and with `max_links = 0` a message with zero links is
allowed — the comparison is `count > max`, not `count ≥ max`. -/
theorem c5_link_threshold (s : AutomodSettings) (c : List Char) (n : Nat)
    (hb : bannedHit s (lowerStr c) = none) :
    (s.max_links = n → countLinks c = n → contentVerdict s c = Verdict.Allow)
    ∧ (s.max_links = n → countLinks c = n + 1 →
        contentVerdict s c = Verdict.Reject Reason.TooManyLinks)
    ∧ (s.max_links = 0 → countLinks c = 0 → contentVerdict s c = Verdict.Allow) := by
  refine ⟨?_, ?_, ?_⟩ <;> intro h1 h2 <;> simp only [contentVerdict, hb] <;> rw [h1, h2]
  · rw [if_neg (by omega)]
  · rw [if_pos (by omega)]
  · rw [if_neg (by omega)]

/-- C5, witness: `max_links = 1` allows one link and rejects two; a
linkless message passes with `max_links = 0`. -/
theorem c5_link_threshold_witness :
    contentVerdict ⟨[], 1, 3, 10⟩ ['h', 't', 't', 'p', ':', '/', '/', 'a'] = Verdict.Allow
    ∧ contentVerdict ⟨[], 1, 3, 10⟩
        ['h', 't', 't', 'p', ':', '/', '/', 'a', ' ', 'h', 't', 't', 'p', ':', '/', '/', 'b']
        = Verdict.Reject Reason.TooManyLinks
    ∧ contentVerdict ⟨[], 0, 3, 10⟩ ['h', 'i'] = Verdict.Allow :=
  ⟨(c5_link_threshold ⟨[], 1, 3, 10⟩ ['h', 't', 't', 'p', ':', '/', '/', 'a'] 1 rfl).1
      rfl (by decide),
   (c5_link_threshold ⟨[], 1, 3, 10⟩
      ['h', 't', 't', 'p', ':', '/', '/', 'a', ' ', 'h', 't', 't', 'p', ':', '/', '/', 'b']
      1 rfl).2.1 rfl (by decide),
   (c5_link_threshold ⟨[], 0, 3, 10⟩ ['h', 'i'] 0 rfl).2.2 rfl (by decide)⟩

/-- C6, counterexample: the claim states that matching is
case-insensitive for every configured word.  `cmd_set_banned_words`
stores the words exactly as typed (no lowercasing — the lowercasing
helper `set_banned_words` at lines 68-72 is never called), while the
filter lowercases only the message; a word configured as `"Spam"`
therefore occurs case-insensitively in the message `"spam here"` yet
the message is allowed. -/
theorem c6_uppercase_word_counterexample :
    ((get_automod_settings (cmd_set_banned_words emptyTable 1 ['S', 'p', 'a', 'm'])
        1).banned_words = [['S', 'p', 'a', 'm']])
    ∧ occursIn (lowerStr ['S', 'p', 'a', 'm'])
        (lowerStr ['s', 'p', 'a', 'm', ' ', 'h', 'e', 'r', 'e']) = true
    ∧ contentVerdict (get_automod_settings (cmd_set_banned_words emptyTable 1 ['S', 'p', 'a', 'm']) 1)
        ['s', 'p', 'a', 'm', ' ', 'h', 'e', 'r', 'e'] = Verdict.Allow := by
  decide

/-- C6, amended: banned-word filtering is evaluated before the
link-flood rule, ignores empty configured entries, and rejects with
`ProhibitedWord` exactly when some non-empty configured word occurs
verbatim as a substring of the lowercased message text — so matching is
case-insensitive in the message only, and a configured word containing
an uppercase letter never matches. -/
theorem c6_banned_word_matching (s : AutomodSettings) (c : List Char) :
    contentVerdict s c = Verdict.Reject Reason.ProhibitedWord
      ↔ ∃ w ∈ s.banned_words, w.isEmpty = false ∧ occursIn w (lowerStr c) = true := by
  unfold contentVerdict bannedHit
  cases hf : List.find? (fun bad => !bad.isEmpty && occursIn bad (lowerStr c)) s.banned_words with
  | none =>
    constructor
    · intro h
      by_cases hl : s.max_links < countLinks c <;> simp [hl] at h
    · rintro ⟨w, hw, hne, hocc⟩
      have hnot := List.find?_eq_none.mp hf w hw
      simp [hne, hocc] at hnot
  | some w =>
    constructor
    · intro _
      have hp := List.find?_some hf
      have hm := List.mem_of_find?_eq_some hf
      simp only [Bool.and_eq_true, Bool.not_eq_true'] at hp
      exact ⟨w, hm, hp.1, hp.2⟩
    · intro _
      rfl

/-- C7: the audit correlator returns the actor of the first entry of
matching kind within the 25-entry lookback; it returns `None` — the
caught-exception path, never a raised error — when the query fails or
finds no matching kind; and a `None` attribution makes the handler skip
tracking entirely, leaving the tracker untouched and triggering no
response. -/
theorem c7_audit_correlation :
    (∀ t : ActionType, find_audit_executor t none = none)
    ∧ (∀ (t : ActionType) (es : List AuditEntry),
        find_audit_executor t (some es)
          = ((es.take 25).find? (fun e => matchesType t e.action)).map AuditEntry.user)
    ∧ (∀ (env : GuildEnv) (s : AutomodSettings) (m : ActorMap)
        (qr : Option (List AuditEntry)) (now : Nat),
        find_audit_executor ActionType.role_delete qr = none →
        on_guild_role_delete env s m qr now = (m, none)) := by
  refine ⟨fun _ => rfl, ?_, ?_⟩
  · intro t es
    exact findExecLoop_eq t (es.take 25)
  · intro env s m qr now h
    cases henv : env.allowed <;> simp [on_guild_role_delete, henv, h]

/-- C7, witness: a failed audit query leaves the tracker unchanged and
produces no response. -/
theorem c7_audit_correlation_witness :
    on_guild_role_delete ⟨true, true, true, true⟩ defaultSettings [(3, [1])] none 5
      = ([(3, [1])], none) :=
  c7_audit_correlation.2.2 ⟨true, true, true, true⟩ defaultSettings [(3, [1])] none 5 rfl

/-- C8: every operation touching a window preserves ascending order,
assuming the monotone clock the spec states: `record_action` appends at
the tail a time at least every recorded one, the handlers' window trim
pops only from the head, and the Pruner sweep trims every tracked
window from the head. -/
theorem c8_sorted_invariant :
    (∀ (m : ActorMap) (u now : Nat), (getDq m u).Sorted (· ≤ ·) →
        (∀ t ∈ getDq m u, t ≤ now) → ((record_action m u now).2).Sorted (· ≤ ·))
    ∧ (∀ (c : Nat) (l : List Nat), l.Sorted (· ≤ ·) → (trimHead c l).Sorted (· ≤ ·))
    ∧ (∀ (m : ActorMap) (now u : Nat), (getDq m u).Sorted (· ≤ ·) →
        (getDq (check_action_queues m now) u).Sorted (· ≤ ·)) := by
  refine ⟨?_, ?_, ?_⟩
  · intro m u now hsort hmono
    simp only [record_action]
    exact sorted_append_singleton _ _ hsort hmono
  · intro c l h
    exact trimHead_sorted c l h
  · intro m now u hsort
    rw [getDq_check]
    exact trimHead_sorted _ _ hsort

/-- C8, witness: the three operations at concrete sorted windows. -/
theorem c8_sorted_invariant_witness :
    ((record_action [(1, [1, 2])] 1 3).2).Sorted (· ≤ ·)
    ∧ (trimHead 2 [1, 2, 3]).Sorted (· ≤ ·)
    ∧ (getDq (check_action_queues [(1, [1, 2])] 400) 1).Sorted (· ≤ ·) :=
  ⟨c8_sorted_invariant.1 [(1, [1, 2])] 1 3 (by decide) (by decide),
   c8_sorted_invariant.2.1 2 [1, 2, 3] (by decide),
   c8_sorted_invariant.2.2 [(1, [1, 2])] 400 1 (by decide)⟩

/-- C9, counterexample: the claim states that a window's map entry is
removed/destroyed once empty.  The sweep loop only pops timestamps; it
never deletes the dict entry: after pruning, actor 7's entry is still
present holding an empty deque, and further sweeps leave the empty
entry in place forever. -/
theorem c9_entry_never_removed :
    check_action_queues [(7, [0])] 400 = [(7, [])]
    ∧ check_action_queues [(7, [])] 100000 = [(7, [])]
    ∧ (List.lookup 7 (check_action_queues [(7, [0])] 400)).isSome = true := by
  decide

/-- C9, amended: each Pruner sweep removes from a (sorted) tracked
window exactly the timestamps older than the fixed five-minute ceiling,
so an actor all of whose timestamps predate `now - 300` ends up with an
empty window — but the per-actor map entry itself is never removed: it
survives as an empty deque. -/
theorem c9_pruner_amended (m : ActorMap) (u now : Nat) (dq : List Nat)
    (hlook : List.lookup u m = some dq) (hsort : dq.Sorted (· ≤ ·)) :
    List.lookup u (check_action_queues m now)
        = some (dq.filter (fun t => decide (now - 300 ≤ t)))
    ∧ ((∀ t ∈ dq, t < now - 300) →
        List.lookup u (check_action_queues m now) = some []) := by
  constructor
  · unfold check_action_queues
    rw [lookup_map_trim, hlook]
    show some (trimHead (now - 300) dq) = _
    rw [trimHead_eq_filter _ _ hsort]
  · intro hall
    unfold check_action_queues
    rw [lookup_map_trim, hlook]
    show some (trimHead (now - 300) dq) = some []
    rw [trimHead_eq_nil _ _ hall]

/-- C9, witness: actor 7's lone timestamp 0 is older than the ceiling
at time 400, and the sweep leaves the entry present but empty. -/
theorem c9_pruner_amended_witness :
    List.lookup 7 (check_action_queues [(7, [0])] 400) = some [] :=
  (c9_pruner_amended [(7, [0])] 7 400 [0] rfl (by decide)).2 (by decide)

/-- C10: a message authored by a bot account is returned from
immediately: no banned-word check, no link-flood check, no deletion, no
command processing. -/
theorem c10_bot_messages_skipped (s : AutomodSettings) (msg : Message)
    (hbot : msg.authorIsBot = true) :
    on_message s msg = MsgOutcome.skipped := by
  simp [on_message, hbot]

/-- C10, witness: a bot-authored message in an allowed guild is
skipped. -/
theorem c10_bot_messages_skipped_witness :
    on_message defaultSettings ⟨true, true, ['h', 'i']⟩ = MsgOutcome.skipped :=
  c10_bot_messages_skipped defaultSettings ⟨true, true, ['h', 'i']⟩ rfl

end SleepHost
